import Mathlib

/-!
Shallow embedding of the BudgetBox repository (frontend budget metrics,
budget state store, sync coordinator, and backend sync endpoint) together
with theorems settling the specification claims.

Numbers are modelled as exact rationals (ℚ).  Effects supplied by the
environment (wall-clock timestamps, generated snapshot ids, network
responses) are passed as explicit arguments.
-/

set_option autoImplicit false

namespace BudgetBox

/-- `BudgetFields` from `src/frontend/src/store/budgetStore.ts`:
six numeric fields. -/
structure BudgetFields where
  income : ℚ
  monthlyBills : ℚ
  food : ℚ
  transport : ℚ
  subscriptions : ℚ
  miscellaneous : ℚ
  deriving Repr, DecidableEq

/-- `SyncStatus` from the store: the tri-state sync indicator. -/
inductive SyncStatus where
  | localOnly
  | syncPending
  | synced
  deriving Repr, DecidableEq

/-- `BudgetSnapshot` from the store: an immutable copy of the budget
fields with an id and a timestamp. -/
structure BudgetSnapshot where
  id : String
  timestamp : String
  budget : BudgetFields
  deriving Repr, DecidableEq

/-- The data portion of the zustand `BudgetState` aggregate. -/
structure BudgetState where
  budget : BudgetFields
  syncStatus : SyncStatus
  lastUpdatedAt : Option String
  lastSyncedAt : Option String
  userEmail : String
  authToken : Option String
  history : List BudgetSnapshot
  deriving Repr, DecidableEq

/-- Result record of `getTotals` in `src/frontend/src/lib/budget.ts`. -/
structure Totals where
  expenses : ℚ
  burnRate : ℚ
  savings : ℚ
  monthEndPrediction : ℚ
  deriving Repr, DecidableEq

/-- `getTotals` from `src/frontend/src/lib/budget.ts`.  The JavaScript
source guards the division with truthiness (`budget.income ? expenses /
budget.income : 0`), i.e. the division happens exactly when `income ≠ 0`. -/
def getTotals (budget : BudgetFields) : Totals :=
  let expenses :=
    budget.monthlyBills +
    budget.food +
    budget.transport +
    budget.subscriptions +
    budget.miscellaneous
  let burnRate := if budget.income ≠ 0 then expenses / budget.income else 0
  let savings := budget.income - expenses
  let monthEndPrediction := savings
  { expenses := expenses, burnRate := burnRate, savings := savings,
    monthEndPrediction := monthEndPrediction }

/-- Warning text pushed when food spend exceeds 40% of income. -/
def foodWarning : String :=
  "Food spend is above 40% of income — trim dining/groceries."

/-- Warning text pushed when subscriptions exceed 30% of income. -/
def subscriptionsWarning : String :=
  "Subscriptions exceed 30% of income — cancel unused apps."

/-- Warning text pushed when savings are negative (overspend). -/
def overspendWarning : String :=
  "Your expenses are higher than income — cut variable costs."

/-- Warning text pushed when the burn rate exceeds 1. -/
def burnRateWarning : String :=
  "Burn rate is above 1.0 — you will run out before month-end."

/-- `getWarnings` from `src/frontend/src/lib/budget.ts`: four independent
pushes, in source order. -/
def getWarnings (budget : BudgetFields) : List String :=
  let t := getTotals budget
  (if budget.income > 0 ∧ budget.food / budget.income > 2/5 then
    [foodWarning] else []) ++
  (if budget.income > 0 ∧ budget.subscriptions / budget.income > 3/10 then
    [subscriptionsWarning] else []) ++
  (if t.savings < 0 then [overspendWarning] else []) ++
  (if t.burnRate > 1 then [burnRateWarning] else [])

/-! ## Budget state store (`src/frontend/src/store/budgetStore.ts`) -/

/-- `keyof BudgetFields`: the six field names. -/
inductive Field where
  | income
  | monthlyBills
  | food
  | transport
  | subscriptions
  | miscellaneous
  deriving Repr, DecidableEq

/-- Read one member of `BudgetFields` by field name. -/
def BudgetFields.get (b : BudgetFields) : Field → ℚ
  | .income => b.income
  | .monthlyBills => b.monthlyBills
  | .food => b.food
  | .transport => b.transport
  | .subscriptions => b.subscriptions
  | .miscellaneous => b.miscellaneous

/-- `{ ...state.budget, [field]: value }`: the budget with one named
member replaced. -/
def BudgetFields.set (b : BudgetFields) : Field → ℚ → BudgetFields
  | .income, v => { b with income := v }
  | .monthlyBills, v => { b with monthlyBills := v }
  | .food, v => { b with food := v }
  | .transport, v => { b with transport := v }
  | .subscriptions, v => { b with subscriptions := v }
  | .miscellaneous, v => { b with miscellaneous := v }

/-- `initialBudget` from the store: all six fields default to 0. -/
def initialBudget : BudgetFields :=
  { income := 0, monthlyBills := 0, food := 0, transport := 0,
    subscriptions := 0, miscellaneous := 0 }

/-- The initial store state from the `create` call: initial budget,
`local-only`, demo email, no token, no timestamps, empty history. -/
def initialState : BudgetState :=
  { budget := initialBudget
    syncStatus := .localOnly
    lastUpdatedAt := none
    lastSyncedAt := none
    userEmail := "hire-me@anshumat.org"
    authToken := none
    history := [] }

/-- `updateField` from the store: sets one budget member, demotes a
`synced` status to `sync-pending`, stamps `lastUpdatedAt` with the
current time (passed here as `now`). -/
def updateField (s : BudgetState) (f : Field) (v : ℚ) (now : String) :
    BudgetState :=
  { s with
    budget := s.budget.set f v
    syncStatus :=
      if s.syncStatus = .synced then .syncPending else s.syncStatus
    lastUpdatedAt := some now }

/-- `setSyncStatus` from the store: direct status override. -/
def setSyncStatus (s : BudgetState) (status : SyncStatus) : BudgetState :=
  { s with syncStatus := status }

/-- `markSynced` from the store: status becomes `synced` and
`lastSyncedAt` records the given timestamp. -/
def markSynced (s : BudgetState) (timestamp : String) : BudgetState :=
  { s with syncStatus := .synced, lastSyncedAt := some timestamp }

/-- `hydrateFromServer` from the store: full overwrite of the budget,
status `synced`, `lastSyncedAt` set to `syncedAt ?? new Date()` (the
current time is passed as `now`). -/
def hydrateFromServer (s : BudgetState) (budget : BudgetFields)
    (syncedAt : Option String) (now : String) : BudgetState :=
  { s with
    budget := budget
    syncStatus := .synced
    lastSyncedAt := some (syncedAt.getD now) }

/-- `addSnapshot` from the store: prepends a snapshot of the current
budget (with the generated `id` and current `timestamp` passed as
arguments) and truncates the history with `slice(0, 20)`. -/
def addSnapshot (s : BudgetState) (id timestamp : String) : BudgetState :=
  let snapshot : BudgetSnapshot :=
    { id := id, timestamp := timestamp, budget := s.budget }
  let nextHistory := (snapshot :: s.history).take 20
  { s with history := nextHistory }

/-- `restoreSnapshot` from the store: `find` the snapshot by id; when
absent return the state unchanged, otherwise overwrite the budget with
the snapshot's copy, set status `local-only` and stamp `lastUpdatedAt`. -/
def restoreSnapshot (s : BudgetState) (id : String) (now : String) :
    BudgetState :=
  match s.history.find? (fun h => h.id == id) with
  | none => s
  | some snap =>
      { s with
        budget := snap.budget
        syncStatus := .localOnly
        lastUpdatedAt := some now }

/-! ## Sync coordinator (`src/unnamed/part_000`, the page component) -/

/-- Outcome of the `fetch` in `syncToServer`: either the HTTP call
succeeded (2xx) with an optional `timestamp` in the JSON body, or it
failed (network error or non-2xx, both thrown and caught). -/
inductive SyncResult where
  | success (timestamp : Option String)
  | failure
  deriving Repr, DecidableEq

/-- Outcome of the `fetch` in `fetchLatest`: a response carrying
`budget` (possibly null) and `updatedAt` (possibly null), or a thrown
network failure. -/
inductive FetchResult where
  | success (budget : Option BudgetFields) (updatedAt : Option String)
  | failure
  deriving Repr, DecidableEq

/-- The optimistic first step of `syncToServer`:
`setSyncStatus("sync-pending")` before the request is sent. -/
def syncOptimistic (s : BudgetState) : BudgetState :=
  setSyncStatus s .syncPending

/-- `syncToServer` from the page component: optimistically set
`sync-pending`; on success `markSynced(data.timestamp ?? now)`; on any
failure `setSyncStatus("local-only")`.  Returns the final state and the
user-facing message. -/
def syncToServer (s : BudgetState) (result : SyncResult) (now : String) :
    BudgetState × String :=
  let s1 := syncOptimistic s
  match result with
  | .success timestamp =>
      (markSynced s1 (timestamp.getD now), "Synced to server successfully.")
  | .failure =>
      (setSyncStatus s1 .localOnly, "Sync failed")

/-- `fetchLatest` from the page component: on a response with a budget,
hydrate from the server; on a response with a null budget, leave the
state untouched and report no server copy; on a thrown failure, leave
the state untouched and report working offline. -/
def fetchLatest (s : BudgetState) (result : FetchResult) (now : String) :
    BudgetState × String :=
  match result with
  | .success (some budget) updatedAt =>
      (hydrateFromServer s budget updatedAt now,
       "Pulled latest server version.")
  | .success none _ =>
      (s, "No server copy found — still local-first.")
  | .failure =>
      (s, "Could not fetch server copy — working offline.")

/-! ## Backend sync endpoint (`src/backend/src/server.ts`) -/

/-- `BudgetRecord` from the server: one record per email. -/
structure BudgetRecord where
  email : String
  budget : BudgetFields
  updatedAt : String
  deriving Repr, DecidableEq

/-- The parts of a `POST /budget/sync` request the handler reads: the
two optional body members and the optional `Authorization` header. -/
structure SyncRequest where
  budget : Option BudgetFields
  email : Option String
  authorization : Option String
  deriving Repr, DecidableEq

/-- The three responses the sync handler can produce. -/
inductive SyncResponse where
  | badRequest (error : String)
  | forbidden (error : String)
  | ok (timestamp : String)
  deriving Repr, DecidableEq

/-- Left-to-right scan deleting the first occurrence of `pat`. -/
def deleteFirstAux (pat : List Char) : List Char → List Char
  | [] => []
  | c :: rest =>
      if (c :: rest).take pat.length = pat then (c :: rest).drop pat.length
      else c :: deleteFirstAux pat rest

/-- JavaScript `String.prototype.replace` with a string pattern replaces
only the first occurrence; with an empty replacement it deletes the
first occurrence of `pat` in `s` (and returns `s` unchanged when `pat`
does not occur). -/
def replaceFirst (s pat : String) : String :=
  String.mk (deleteFirstAux pat.toList s.toList)

/-- The in-memory `BudgetStore` (`Map<string, BudgetRecord>`), as an
association list; `save` is `Map.set`. -/
def saveRecord (store : List (String × BudgetRecord)) (record : BudgetRecord) :
    List (String × BudgetRecord) :=
  (record.email, record) :: store.filter (fun p => p.fst != record.email)

/-- Lookup in the in-memory store (`Map.get`). -/
def lookupRecord (store : List (String × BudgetRecord)) (email : String) :
    Option BudgetRecord :=
  (store.find? (fun p => p.fst == email)).map Prod.snd

/-- `tokenMap.get(token)` where `tokenMap` is an association list of
token/email pairs. -/
def tokenEmailOf (tokenMap : List (String × String)) (req : SyncRequest) :
    Option String :=
  let authHeader := req.authorization.getD ""
  let token := replaceFirst authHeader "Bearer "
  (tokenMap.find? (fun p => p.fst == token)).map Prod.snd

/-- `const resolvedEmail = email ?? tokenEmail`. -/
def resolvedEmailOf (tokenMap : List (String × String)) (req : SyncRequest) :
    Option String :=
  match req.email with
  | some e => some e
  | none => tokenEmailOf tokenMap req

/-- The guard of the 403 branch:
`tokenMap.size && tokenEmail && tokenEmail !== resolvedEmail` — the map
is non-empty, the token maps to a truthy (non-empty) email, and that
email differs from the resolved one. -/
def tokenMismatch (tokenMap : List (String × String))
    (tokenEmail : Option String) (resolvedEmail : String) : Bool :=
  !tokenMap.isEmpty &&
    (match tokenEmail with
     | some te => te != "" && te != resolvedEmail
     | none => false)

/-- The `POST /budget/sync` handler.  `now` is `new Date().toISOString()`.
A JavaScript falsy check guards the 400: `!resolvedEmail` is true when
the resolved email is undefined or the empty string.  Returns the
response and the updated in-memory store. -/
def handleSync (tokenMap : List (String × String))
    (store : List (String × BudgetRecord)) (req : SyncRequest)
    (now : String) : SyncResponse × List (String × BudgetRecord) :=
  let tokenEmail := tokenEmailOf tokenMap req
  match resolvedEmailOf tokenMap req with
  | none => (.badRequest "Email is required", store)
  | some resolvedEmail =>
      if resolvedEmail = "" then
        (.badRequest "Email is required", store)
      else if tokenMismatch tokenMap tokenEmail resolvedEmail then
        (.forbidden "Token does not match email", store)
      else
        match req.budget with
        | none => (.badRequest "Budget payload missing", store)
        | some budget =>
            (.ok now,
             saveRecord store
               { email := resolvedEmail, budget := budget, updatedAt := now })

/-! ## Concrete data used by the claim theorems and witnesses -/

/-- A budget with negative income: the truthiness guard in `getTotals`
takes the division branch, so the burn rate is `1 / (-1) = -1`, not `0`. -/
def negIncomeBudget : BudgetFields :=
  { income := -1, monthlyBills := 1, food := 0, transport := 0,
    subscriptions := 0, miscellaneous := 0 }

/-- A concrete zero-income budget with huge food and subscription spend. -/
def zeroIncomeBudget : BudgetFields :=
  { income := 0, monthlyBills := 0, food := 100000, transport := 0,
    subscriptions := 100000, miscellaneous := 0 }

/-- A snapshot used to exercise `restoreSnapshot` on concrete data. -/
def sampleSnapshot : BudgetSnapshot :=
  { id := "snap-1", timestamp := "2025-01-01T00:00:00.000Z",
    budget := ⟨1, 2, 3, 4, 5, 6⟩ }

/-- A state whose history holds exactly `sampleSnapshot`. -/
def sampleState : BudgetState :=
  { initialState with syncStatus := .synced, history := [sampleSnapshot] }

/-- Iterated `addSnapshot`: one call per (id, timestamp) pair, oldest
call first. -/
def addSnapshots (s : BudgetState) (meta : List (String × String)) :
    BudgetState :=
  meta.foldl (fun st m => addSnapshot st m.fst m.snd) s

/-- The snapshot captured from budget `b` with metadata `m`. -/
def snapOf (b : BudgetFields) (m : String × String) : BudgetSnapshot :=
  { id := m.fst, timestamp := m.snd, budget := b }

/-- 25 distinct (id, timestamp) pairs. -/
def meta25 : List (String × String) :=
  (List.range 25).map (fun i => (toString i, toString i))

/-- A login token mapped to the demo email. -/
def cexTokenMap : List (String × String) := [("tok", "hire-me@anshumat.org")]

/-- A sync request that carries a budget and a bearer token but no
`email` member in the body. -/
def cexRequest : SyncRequest :=
  { budget := some initialBudget, email := none,
    authorization := some "Bearer tok" }

/-! ## Helper lemmas -/

theorem mem_ite_singleton {α : Type} (c : Prop) [Decidable c] (a x : α) :
    a ∈ (if c then [x] else ([] : List α)) ↔ c ∧ a = x := by
  split <;> simp_all

theorem getTotals_expenses (b : BudgetFields) :
    (getTotals b).expenses =
      b.monthlyBills + b.food + b.transport + b.subscriptions +
        b.miscellaneous := rfl

theorem getTotals_savings (b : BudgetFields) :
    (getTotals b).savings = b.income - (getTotals b).expenses := rfl

theorem getTotals_burnRate (b : BudgetFields) :
    (getTotals b).burnRate =
      if b.income ≠ 0 then (getTotals b).expenses / b.income else 0 := rfl

/-! ## Claims about the derived-metrics calculator -/

/-- C1 counterexample: the claim says burnRate is 0 for every input with
income ≤ 0, but on a budget with income = -1 and one rupee of expenses
the code returns burnRate = -1 ≠ 0. -/
theorem c1_burnRate_neg_income_counterexample :
    negIncomeBudget.income ≤ 0 ∧
    (getTotals negIncomeBudget).burnRate = -1 ∧
    (getTotals negIncomeBudget).burnRate ≠ 0 := by
  refine ⟨by norm_num [negIncomeBudget], ?_, ?_⟩ <;>
    norm_num [negIncomeBudget, getTotals]

/-- C1 (amended): `expenses` is the sum of the five non-income fields,
and `burnRate` equals `expenses / income` whenever `income ≠ 0` (the
source's truthiness guard) and `0` when `income = 0`; in particular the
division branch is also taken for negative income. -/
theorem c1_burnRate_amended (b : BudgetFields) :
    (getTotals b).expenses =
      b.monthlyBills + b.food + b.transport + b.subscriptions +
        b.miscellaneous ∧
    (b.income ≠ 0 → (getTotals b).burnRate = (getTotals b).expenses / b.income) ∧
    (b.income = 0 → (getTotals b).burnRate = 0) := by
  refine ⟨rfl, ?_, ?_⟩ <;> intro h <;> simp [getTotals, h]

/-- Witness for C1 (amended) at income = 2, expenses = 3. -/
theorem c1_burnRate_amended_witness :
    (getTotals ⟨2, 3, 0, 0, 0, 0⟩).burnRate =
      (getTotals ⟨2, 3, 0, 0, 0, 0⟩).expenses / (2 : ℚ) ∧
    (getTotals ⟨2, 3, 0, 0, 0, 0⟩).burnRate = 3 / 2 := by
  refine ⟨(c1_burnRate_amended ⟨2, 3, 0, 0, 0, 0⟩).2.1 (by norm_num), ?_⟩
  norm_num [getTotals]

theorem mem_getWarnings (b : BudgetFields) (w : String) :
    w ∈ getWarnings b ↔
      ((b.income > 0 ∧ b.food / b.income > 2/5) ∧ w = foodWarning) ∨
      ((b.income > 0 ∧ b.subscriptions / b.income > 3/10) ∧
        w = subscriptionsWarning) ∨
      ((getTotals b).savings < 0 ∧ w = overspendWarning) ∨
      ((getTotals b).burnRate > 1 ∧ w = burnRateWarning) := by
  unfold getWarnings
  simp only [List.mem_append, mem_ite_singleton]
  tauto

/-- C8: the overspend warning is in the output iff savings < 0 and the
burn-rate warning is in the output iff burnRate > 1, for every input —
so each fires independently of the income-ratio warnings. -/
theorem c8_overspend_burnRate_warnings_iff (b : BudgetFields) :
    (overspendWarning ∈ getWarnings b ↔ (getTotals b).savings < 0) ∧
    (burnRateWarning ∈ getWarnings b ↔ (getTotals b).burnRate > 1) := by
  constructor <;>
    simp [mem_getWarnings, foodWarning, subscriptionsWarning,
      overspendWarning, burnRateWarning]

/-- C9: with income = 0 the two income-ratio warnings are suppressed no
matter how large food or subscriptions are, while the overspend and
burn-rate warnings are still evaluated as usual on that input. -/
theorem c9_zero_income_suppresses_ratio_warnings (b : BudgetFields)
    (h : b.income = 0) :
    foodWarning ∉ getWarnings b ∧
    subscriptionsWarning ∉ getWarnings b ∧
    (overspendWarning ∈ getWarnings b ↔ (getTotals b).savings < 0) ∧
    (burnRateWarning ∈ getWarnings b ↔ (getTotals b).burnRate > 1) := by
  have hov : (overspendWarning ∈ getWarnings b ↔ (getTotals b).savings < 0) ∧
      (burnRateWarning ∈ getWarnings b ↔ (getTotals b).burnRate > 1) := by
    constructor <;>
      simp [mem_getWarnings, foodWarning, subscriptionsWarning,
        overspendWarning, burnRateWarning]
  refine ⟨?_, ?_, hov.1, hov.2⟩ <;>
    simp [mem_getWarnings, h, foodWarning, subscriptionsWarning,
      overspendWarning, burnRateWarning]

/-- Witness for C9 at income = 0 with very large food and subscriptions:
neither ratio warning fires, and the overspend warning does fire since
savings = -200000 < 0. -/
theorem c9_zero_income_witness :
    foodWarning ∉ getWarnings zeroIncomeBudget ∧
    (getTotals zeroIncomeBudget).savings < 0 ∧
    overspendWarning ∈ getWarnings zeroIncomeBudget := by
  have hs : (getTotals zeroIncomeBudget).savings < 0 := by
    norm_num [getTotals, zeroIncomeBudget]
  exact ⟨(c9_zero_income_suppresses_ratio_warnings zeroIncomeBudget rfl).1, hs,
    ((c9_zero_income_suppresses_ratio_warnings zeroIncomeBudget rfl).2.2.1).mpr hs⟩

/-! ## Claims about the budget state store -/

/-- C3: `updateField` sets exactly the named budget field to the given
value, demotes a `synced` status to `sync-pending` while leaving a
`local-only` or `sync-pending` status unchanged, and updates
`lastUpdatedAt`. -/
theorem c3_updateField_behavior (s : BudgetState) (f : Field) (v : ℚ)
    (now : String) :
    (∀ g, (updateField s f v now).budget.get g =
      if g = f then v else s.budget.get g) ∧
    (updateField s f v now).syncStatus =
      (if s.syncStatus = .synced then .syncPending else s.syncStatus) ∧
    (updateField s f v now).lastUpdatedAt = some now := by
  refine ⟨?_, rfl, rfl⟩
  intro g
  cases f <;> cases g <;>
    simp [updateField, BudgetFields.set, BudgetFields.get]

/-- C10: `addSnapshot` only changes the history — budget, sync status,
both timestamps, email and token are untouched; in particular a
`synced` status stays `synced`. -/
theorem c10_addSnapshot_frame (s : BudgetState) (id ts : String) :
    (addSnapshot s id ts).budget = s.budget ∧
    (addSnapshot s id ts).syncStatus = s.syncStatus ∧
    (addSnapshot s id ts).lastUpdatedAt = s.lastUpdatedAt ∧
    (addSnapshot s id ts).lastSyncedAt = s.lastSyncedAt ∧
    (addSnapshot s id ts).userEmail = s.userEmail ∧
    (addSnapshot s id ts).authToken = s.authToken :=
  ⟨rfl, rfl, rfl, rfl, rfl, rfl⟩

/-- C6: `restoreSnapshot` with an id not present in the history returns
the state unchanged; with an id found in the history it overwrites the
budget with that snapshot's stored copy, sets status `local-only`,
updates `lastUpdatedAt`, and touches nothing else. -/
theorem c6_restoreSnapshot_behavior (s : BudgetState) (id now : String) :
    ((∀ snap ∈ s.history, snap.id ≠ id) → restoreSnapshot s id now = s) ∧
    (∀ snap, s.history.find? (fun h => h.id == id) = some snap →
      (restoreSnapshot s id now).budget = snap.budget ∧
      (restoreSnapshot s id now).syncStatus = .localOnly ∧
      (restoreSnapshot s id now).lastUpdatedAt = some now ∧
      (restoreSnapshot s id now).history = s.history ∧
      (restoreSnapshot s id now).lastSyncedAt = s.lastSyncedAt ∧
      (restoreSnapshot s id now).userEmail = s.userEmail ∧
      (restoreSnapshot s id now).authToken = s.authToken) := by
  constructor
  · intro hne
    have hfind : s.history.find? (fun h => h.id == id) = none := by
      rw [List.find?_eq_none]
      intro snap hsnap
      simpa using hne snap hsnap
    simp [restoreSnapshot, hfind]
  · intro snap hfind
    simp [restoreSnapshot, hfind]

/-- Witness for C6: restoring a missing id on `sampleState` is a no-op,
and restoring `"snap-1"` installs the stored budget copy with status
`local-only`. -/
theorem c6_restoreSnapshot_witness :
    restoreSnapshot sampleState "missing" "t2" = sampleState ∧
    (restoreSnapshot sampleState "snap-1" "t2").budget =
      sampleSnapshot.budget ∧
    (restoreSnapshot sampleState "snap-1" "t2").syncStatus = .localOnly := by
  have h1 := (c6_restoreSnapshot_behavior sampleState "missing" "t2").1
  have h2 := (c6_restoreSnapshot_behavior sampleState "snap-1" "t2").2
    sampleSnapshot
  refine ⟨h1 ?_, (h2 ?_).1, (h2 ?_).2.1⟩
  · intro snap hsnap
    simp only [sampleState, sampleSnapshot, initialState] at hsnap
    simp only [List.mem_singleton] at hsnap
    subst hsnap
    decide
  all_goals
    simp [sampleState, sampleSnapshot, initialState, List.find?]

theorem take_append_take {α : Type} (n : Nat) (l t : List α) :
    (l ++ t.take n).take n = (l ++ t).take n := by
  rw [List.take_append_eq_append_take, List.take_append_eq_append_take,
    List.take_take, Nat.min_eq_left (Nat.sub_le n l.length)]

theorem addSnapshot_budget (s : BudgetState) (i t : String) :
    (addSnapshot s i t).budget = s.budget := rfl

theorem addSnapshots_budget (meta : List (String × String))
    (s : BudgetState) : (addSnapshots s meta).budget = s.budget := by
  induction meta generalizing s with
  | nil => rfl
  | cons m rest ih => exact ih (addSnapshot s m.fst m.snd)

theorem addSnapshots_history (m : String × String)
    (rest : List (String × String)) (s : BudgetState) :
    (addSnapshots s (m :: rest)).history =
      (((m :: rest).map (snapOf s.budget)).reverse ++ s.history).take 20 := by
  induction rest generalizing m s with
  | nil => simp [addSnapshots, addSnapshot, snapOf]
  | cons m2 rest2 ih =>
      have step : addSnapshots s (m :: m2 :: rest2) =
          addSnapshots (addSnapshot s m.fst m.snd) (m2 :: rest2) := rfl
      have hb : (addSnapshot s m.fst m.snd).budget = s.budget := rfl
      have hh : (addSnapshot s m.fst m.snd).history =
          (snapOf s.budget m :: s.history).take 20 := rfl
      rw [step, ih, hb, hh, take_append_take]
      simp [List.reverse_cons, List.append_assoc]

/-- C5: 25 calls to `addSnapshot` leave exactly 20 snapshots, the 20
most recent in most-recent-first order (the 5 oldest evicted); each
call prepends a copy of the current budget under the supplied fresh id
and timestamp, and no call ever leaves more than 20 entries. -/
theorem c5_addSnapshot_history_bound (s : BudgetState)
    (meta : List (String × String)) (h : meta.length = 25) :
    (addSnapshots s meta).history.length = 20 ∧
    (addSnapshots s meta).history =
      ((meta.drop 5).map (snapOf s.budget)).reverse ∧
    (∀ s2 : BudgetState, ∀ i t : String,
      (addSnapshot s2 i t).history.head? = some (snapOf s2.budget (i, t)) ∧
      (addSnapshot s2 i t).history.length ≤ 20) := by
  have hmain : (addSnapshots s meta).history =
      ((meta.drop 5).map (snapOf s.budget)).reverse := by
    cases meta with
    | nil => simp at h
    | cons m rest =>
        rw [addSnapshots_history, List.take_append_eq_append_take,
          List.take_reverse, List.length_reverse]
        simp only [List.length_map, h]
        norm_num
  refine ⟨?_, hmain, ?_⟩
  · rw [hmain]
    simp [h]
  · intro s2 i t
    constructor
    · rfl
    · have : (addSnapshot s2 i t).history =
          (snapOf s2.budget (i, t) :: s2.history).take 20 := rfl
      rw [this]
      exact List.length_take_le 20 _

/-- Witness for C5: starting from the initial state, 25 snapshots leave
a history of exactly 20. -/
theorem c5_addSnapshot_history_bound_witness :
    meta25.length = 25 ∧
    (addSnapshots initialState meta25).history.length = 20 :=
  ⟨by simp [meta25],
    (c5_addSnapshot_history_bound initialState meta25 (by simp [meta25])).1⟩

/-! ## Claims about the sync coordinator -/

/-- C4: `syncToServer` first sets the status to `sync-pending`
optimistically (`syncOptimistic` is its first step); on failure the
final status is `local-only` — never `sync-pending` — and on success
the final status is `synced` with the server timestamp when present and
the local time otherwise. -/
theorem c4_sync_status_lifecycle (s : BudgetState) (now : String) :
    (syncOptimistic s).syncStatus = .syncPending ∧
    (syncToServer s .failure now).fst.syncStatus = .localOnly ∧
    (syncToServer s .failure now).fst.syncStatus ≠ .syncPending ∧
    (∀ ts : String,
      (syncToServer s (.success (some ts)) now).fst.syncStatus = .synced ∧
      (syncToServer s (.success (some ts)) now).fst.lastSyncedAt = some ts) ∧
    (syncToServer s (.success none) now).fst.syncStatus = .synced ∧
    (syncToServer s (.success none) now).fst.lastSyncedAt = some now := by
  exact ⟨rfl, rfl, by simp [syncToServer, syncOptimistic, setSyncStatus],
    fun ts => ⟨rfl, rfl⟩, rfl, rfl⟩

/-- C7: `fetchLatest` leaves the whole state unchanged and reports "no
server copy" when the server returns a null budget; fully overwrites the
budget and sets status `synced` (via `hydrateFromServer`) when a budget
is returned; and leaves the state unchanged on a request failure. -/
theorem c7_fetchLatest_behavior (s : BudgetState) (now : String) :
    (∀ ua, (fetchLatest s (.success none ua) now).fst = s ∧
      (fetchLatest s (.success none ua) now).snd =
        "No server copy found — still local-first.") ∧
    (∀ b ua,
      (fetchLatest s (.success (some b) ua) now).fst =
        hydrateFromServer s b ua now ∧
      (fetchLatest s (.success (some b) ua) now).fst.budget = b ∧
      (fetchLatest s (.success (some b) ua) now).fst.syncStatus = .synced ∧
      (fetchLatest s (.success (some b) ua) now).fst.lastSyncedAt =
        some (ua.getD now)) ∧
    (fetchLatest s .failure now).fst = s :=
  ⟨fun _ => ⟨rfl, rfl⟩, fun _ _ => ⟨rfl, rfl, rfl, rfl⟩, rfl⟩

/-! ## Claims about the backend sync endpoint -/

theorem lookupRecord_saveRecord (store : List (String × BudgetRecord))
    (r : BudgetRecord) : lookupRecord (saveRecord store r) r.email = some r := by
  simp [lookupRecord, saveRecord]

/-- C2 counterexample: the claim says the handler responds 400 exactly
when the body is missing email or budget, but a body with no email and
a valid bearer token resolves the email from the token and gets 200. -/
theorem c2_missing_email_counterexample :
    cexRequest.email = none ∧
    cexRequest.budget = some initialBudget ∧
    (handleSync cexTokenMap [] cexRequest "T").fst = .ok "T" := by
  refine ⟨rfl, rfl, ?_⟩
  decide

/-- C2 (amended): with `resolvedEmail := body email ?? token's mapped
email`, the handler responds 400 when the resolved email is absent or
empty; otherwise 403 when the token map is non-empty and the token's
mapped email is non-empty and differs from the resolved email; otherwise
400 when the budget is missing; otherwise 200 with the timestamp after
saving the record under the resolved email. -/
theorem c2_sync_handler_amended (tokenMap : List (String × String))
    (store : List (String × BudgetRecord)) (req : SyncRequest)
    (now : String) :
    ((resolvedEmailOf tokenMap req = none ∨
        resolvedEmailOf tokenMap req = some "") →
      handleSync tokenMap store req now =
        (.badRequest "Email is required", store)) ∧
    (∀ e, resolvedEmailOf tokenMap req = some e → e ≠ "" →
      tokenMismatch tokenMap (tokenEmailOf tokenMap req) e = true →
      handleSync tokenMap store req now =
        (.forbidden "Token does not match email", store)) ∧
    (∀ e, resolvedEmailOf tokenMap req = some e → e ≠ "" →
      tokenMismatch tokenMap (tokenEmailOf tokenMap req) e = false →
      req.budget = none →
      handleSync tokenMap store req now =
        (.badRequest "Budget payload missing", store)) ∧
    (∀ e b, resolvedEmailOf tokenMap req = some e → e ≠ "" →
      tokenMismatch tokenMap (tokenEmailOf tokenMap req) e = false →
      req.budget = some b →
      (handleSync tokenMap store req now).fst = .ok now ∧
      lookupRecord (handleSync tokenMap store req now).snd e =
        some { email := e, budget := b, updatedAt := now }) := by
  refine ⟨?_, ?_, ?_, ?_⟩
  · rintro (hre | hre) <;> simp [handleSync, hre]
  · intro e hre hne hmm
    simp [handleSync, hre, hne, hmm]
  · intro e hre hne hmm hb
    simp [handleSync, hre, hne, hmm, hb]
  · intro e b hre hne hmm hb
    have hh : handleSync tokenMap store req now =
        (.ok now, saveRecord store
          { email := e, budget := b, updatedAt := now }) := by
      simp [handleSync, hre, hne, hmm, hb]
    rw [hh]
    exact ⟨rfl, lookupRecord_saveRecord store _⟩

/-- Witness for C2 (amended): the token-resolved request is accepted and
its record is stored under the demo email. -/
theorem c2_sync_handler_amended_witness :
    (handleSync cexTokenMap [] cexRequest "T").fst = .ok "T" ∧
    lookupRecord (handleSync cexTokenMap [] cexRequest "T").snd
        "hire-me@anshumat.org" =
      some { email := "hire-me@anshumat.org", budget := initialBudget,
             updatedAt := "T" } :=
  (c2_sync_handler_amended cexTokenMap [] cexRequest "T").2.2.2
    "hire-me@anshumat.org" initialBudget (by decide) (by decide)
    (by decide) rfl

end BudgetBox
